import Mathlib

/-!
Verification development for the CleanS2S frontend voice-client core
(src/frontend_nextjs/components/useVoiceClient.ts): the session message
router (useVoiceClient) and the audio playback scheduler (useSoundPlayer).

The TypeScript source is shallowly embedded: the message handler and the
outbound commands become pure functions from inputs to emitted events, and
the stateful sound player becomes an explicit state type with one Lean
function per operation plus a reachability relation over operation
sequences.  Timestamps (new Date()) are modelled as an abstract Nat clock
value passed to each handler invocation.
-/

namespace CleanS2S

/-- An inbound protocol frame, as delivered to the message handler.  The
source dispatches on the dynamic string field message.type; the remaining
fields mirror the frame shapes of the protocol (audio_output carries
id, data, optional question, optional answer, end; text_output carries id
and answer).  Fields a given tag does not use simply go unread, matching
the dynamic JavaScript object. -/
structure Frame where
  type : String
  id : String := ""
  data : List Nat := []
  question : Option String := none
  answer : Option String := none
  endFlag : Bool := false
deriving DecidableEq

/-- Events emitted by the router within one handler turn, in emission
order.  vad is the onVAD side effect; userMsg, assistantMsg and
postAssistantMsg are onMessage application events carrying the same fields
the source constructs (message type string, id where present, fromText,
content, receivedAt timestamp, end flag); audioHandoff is the
onAudioMessage call that the source schedules through setTimeout with the
given delay in milliseconds. -/
inductive Emit where
  | vad : Emit
  | userMsg (msgType : String) (fromText : Bool) (content : String) (receivedAt : Nat) : Emit
  | assistantMsg (msgType : String) (id : String) (fromText : Bool) (content : String)
      (receivedAt : Nat) (endFlag : Bool) : Emit
  | postAssistantMsg (id : String) (fromText : Bool) (content : String)
      (receivedAt : Nat) (endFlag : Bool) : Emit
  | audioHandoff (delayMs : Nat) (frame : Frame) (receivedAt : Nat) : Emit
deriving DecidableEq

/-- Delivery offset of an emission relative to its handler turn:
synchronous callbacks occur at offset 0, the audio hand-off at its
setTimeout delay. -/
def Emit.delay : Emit → Nat
  | Emit.audioHandoff d _ _ => d
  | _ => 0

/-- True exactly for onMessage events whose message type is user_message,
the optimistic echo of a recognized user utterance. -/
def Emit.isUserMessageEmit : Emit → Bool
  | Emit.userMsg t _ _ _ => t = "user_message"
  | _ => false

/-- How a handler turn terminates.  The handler body of the source
contains no throw site, so every turn in fact ends with normal; the fatal
constructor exists to state the assertion-style failure the specification
describes for unrecognized tags, so the two can be compared. -/
inductive Outcome where
  | normal : Outcome
  | fatal : Outcome
deriving DecidableEq

/-- The exhaustiveness marker from the source.  At the type level it pins
the message union closed, but its runtime body is a bare return: it emits
nothing and does not fail. -/
def isNever (_m : Frame) : List Emit := []

/-- The message handler installed by connect, translated branch by branch.
A JavaScript truthiness test on an optional string field (if
message.question) holds exactly when the field is a nonempty string, which
the translation spells out.  The text_output branch reads the answer field
directly; a well-formed text_output frame always carries one, and a
missing field is read as the empty string. -/
def handleMessage (chatMode : Bool) (now : Nat) (m : Frame) : List Emit × Outcome :=
  let vadEvents : List Emit :=
    if m.type = "vad_output" then
      if chatMode then
        [Emit.vad, Emit.userMsg "user_vad_message" false "" now]
      else
        [Emit.assistantMsg "assistant_notend_message" "notend begin" false "" now false]
    else []
  if m.type = "audio_output" then
    let questionEvents : List Emit :=
      match m.question with
      | some q => if q = "" then [] else [Emit.userMsg "user_message" false q now]
      | none => []
    let answerEvents : List Emit :=
      match m.answer with
      | some a => if a = "" then [] else
          [Emit.assistantMsg "assistant_message" m.id false a now m.endFlag]
      | none => []
    (vadEvents ++ questionEvents ++ answerEvents ++ [Emit.audioHandoff 200 m now],
     Outcome.normal)
  else if m.type = "text_output" then
    (vadEvents ++
       [Emit.postAssistantMsg m.id false (m.answer.getD "") now true],
     Outcome.normal)
  else
    (vadEvents ++ isNever m, Outcome.normal)

/-- A frame whose tag is outside the closed protocol union. -/
def bogusFrame : Frame := { type := "bogus_output" }

/-- An audio_output frame whose question field is present but empty. -/
def emptyQuestionFrame : Frame :=
  { type := "audio_output", id := "clip-1", question := some "", answer := none }

/-- The JavaScript truthiness test the source applies to the optional
question and answer fields of an audio_output frame: true exactly when the
field is present and holds a nonempty string. -/
def truthyString : Option String → Bool
  | some s => !(s == "")
  | none => false

/-- The audio_output frame of the specification scenario: question hi,
answer hello, end false. -/
def specAudioFrame : Frame :=
  { type := "audio_output", id := "clip-9", question := some "hi",
    answer := some "hello", endFlag := false }

/-- Connection lifecycle state of the voice client (VoiceReadyState in the
source): idle, connecting, opened, closed. -/
inductive VoiceReadyState where
  | idle : VoiceReadyState
  | connecting : VoiceReadyState
  | opened : VoiceReadyState
  | closed : VoiceReadyState
deriving DecidableEq

/-- The hook state the outbound commands read: the internal ChatSocket
reference (null until connect has been called, modelled as Option Unit
since the commands only test it for presence) and the ready state. -/
structure HookState where
  client : Option Unit
  readyState : VoiceReadyState
deriving DecidableEq

/-- Payloads handed to the transport send channel by the outbound
commands. -/
inductive Outbound where
  | sessionSettings : Outbound
  | audioInput (bytes : List Nat) (isPlaying : Bool) : Outbound
  | userInput (text : String) : Outbound
  | assistantInput (text : String) : Outbound
  | pauseAssistant : Outbound
  | resumeAssistant : Outbound
  | close : Outbound
deriving DecidableEq

/-- sendSessionSettings: forwards through the optional-chained client
reference; with no client nothing is sent. -/
def sendSessionSettings (st : HookState) : HookState × List Outbound :=
  (st, match st.client with
       | some _ => [Outbound.sessionSettings]
       | none => [])

/-- sendAudio: forwards the raw input buffer and playing flag through the
optional-chained client reference. -/
def sendAudio (st : HookState) (bytes : List Nat) (isPlaying : Bool) :
    HookState × List Outbound :=
  (st, match st.client with
       | some _ => [Outbound.audioInput bytes isPlaying]
       | none => [])

/-- sendAssistantInput: forwards the text through the optional-chained
client reference. -/
def sendAssistantInput (st : HookState) (text : String) : HookState × List Outbound :=
  (st, match st.client with
       | some _ => [Outbound.assistantInput text]
       | none => [])

/-- sendPauseAssistantMessage: forwards an empty pause payload through the
optional-chained client reference. -/
def sendPauseAssistantMessage (st : HookState) : HookState × List Outbound :=
  (st, match st.client with
       | some _ => [Outbound.pauseAssistant]
       | none => [])

/-- sendResumeAssistantMessage: forwards an empty resume payload through
the optional-chained client reference. -/
def sendResumeAssistantMessage (st : HookState) : HookState × List Outbound :=
  (st, match st.client with
       | some _ => [Outbound.resumeAssistant]
       | none => [])

/-- disconnect: resets the ready state to idle, then asks the client, if
any, to close. -/
def disconnect (st : HookState) : HookState × List Outbound :=
  ({ st with readyState := VoiceReadyState.idle },
   match st.client with
   | some _ => [Outbound.close]
   | none => [])

/-- sendUserInput: forwards the text through the optional-chained client
reference; for the reserved sentinel text the function returns right after
forwarding; otherwise, when the captured chat mode is on it emits the
optimistic local UserMessage echo, and it then emits the AssistantMessage
placeholder (empty content, end false) regardless of mode — the
placeholder emission sits outside the chat-mode conditional in the
source. -/
def sendUserInput (st : HookState) (curChatMode : Bool) (now : Nat) (text : String) :
    List Outbound × List Emit :=
  let forwarded : List Outbound :=
    match st.client with
    | some _ => [Outbound.userInput text]
    | none => []
  if text = "new topic" then (forwarded, [])
  else
    (forwarded,
     (if curChatMode then [Emit.userMsg "user_message" false text now] else []) ++
       [Emit.assistantMsg "assistant_notend_message" "notend begin" false "" now false])

/-- A connected hook state. -/
def connectedState : HookState := { client := some (), readyState := VoiceReadyState.opened }

/-- A hook state on which connect was never called. -/
def nullClientState : HookState := { client := none, readyState := VoiceReadyState.idle }

/-- The signed 16-bit little-endian value stored in two consecutive bytes
of the clip buffer, as read by the Int16Array view in addToQueue.  Bytes
are Nat values reduced modulo 256, making the byte-width of the buffer
cells explicit. -/
def int16OfBytes (lo hi : Nat) : Int :=
  let u : Nat := lo % 256 + 256 * (hi % 256)
  if u < 32768 then (u : Int) else (u : Int) - 65536

/-- The decode loop of addToQueue: consume the byte buffer two bytes at a
time, producing one sample int16 / 32768 per pair.  Samples are exact
rationals: every int16 / 32768 is a dyadic rational with at most 15
significand bits, which binary floating point represents exactly, so no
rounding is lost in this model.  A trailing odd byte is dropped, matching
the Int16Array view of floor(byteLength / 2) elements. -/
def decodePCM16 : List Nat → List ℚ
  | lo :: hi :: rest => (int16OfBytes lo hi : ℚ) / 32768 :: decodePCM16 rest
  | _ => []

/-- The full decode step of addToQueue: numberOfFrames = byteLength / 2,
and the platform audio-buffer constructor rejects a zero frame count, so a
buffer shorter than one 2-byte sample throws inside the try block and
decoding fails; otherwise the loop above fills the channel. -/
def decodeClip (bytes : List Nat) : Option (List ℚ) :=
  if bytes.length < 2 then none else some (decodePCM16 bytes)

/-- Sample number i as the specification describes the decoder output:
the i-th little-endian signed 16-bit integer of the buffer divided by
32768. -/
def specSampleAt (bytes : List Nat) (i : Nat) : ℚ :=
  (int16OfBytes (bytes.getD (2 * i) 0) (bytes.getD (2 * i + 1) 0) : ℚ) / 32768

/-- The decoder output as the specification describes it: byteLength / 2
samples, sample i given by specSampleAt. -/
def specDecode (bytes : List Nat) : List ℚ :=
  (List.range (bytes.length / 2)).map (specSampleAt bytes)

/-- A queue entry of the sound player: the clip id and its decoded sample
buffer, plus a ghost tag recording the position of the clip in the global
enqueue order (the value of the enqueue counter when addToQueue accepted
it).  The tag exists only to state FIFO properties; the operations never
branch on it. -/
structure Clip where
  id : String
  samples : List ℚ
  tag : Nat
deriving DecidableEq

/-- Side effects of the sound player observable by the host: the onError
callback and the onPlayAudio now-playing callback. -/
inductive SEvent where
  | error (msg : String) : SEvent
  | playAudio (id : String) : SEvent
deriving DecidableEq

/-- The mutable state of useSoundPlayer, together with the platform
resources its operations drive.  initialized covers isInitialized and the
audioContext and analyserNode refs, which init sets and stopAll clears as
one group; queue is clipQueue; processing is isProcessing; playing is the
visible isPlaying flag; active is currentlyPlayingAudioBuffer paired with
its clip (the ref holds only the most recently started source); fftIdle
records whether the fft snapshot currently equals the idle
(generateEmptyFft) snapshot.

The remaining fields embed the platform state the code manipulates.
intervalRef is frequencyDataIntervalId.current, the shared ref holding
the id of the most recently started 5 ms sampling interval; sampling
interval ids are identified with the ghost enqueue tag of the clip whose
playback started them (each clip starts at most once, so these ids are
fresh, and real interval ids are always non-null once assigned —
clearInterval never nulls the ref).  liveIntervals is the set of interval
ids the platform timer still runs: clearInterval removes an id from it
but, in the source, only ever the id currently stored in intervalRef.
sounding lists the tags of started sources currently producing sound; a
source leaves it when it is stopped or its buffer ends.  pendingEnded is
the completion queue: the ended events of stopped sources, queued by the
platform and delivered asynchronously, strictly after the operation that
caused them (the handler must not be assumed to run immediately).

nextTag is the ghost enqueue counter and played the ghost log of
onPlayAudio emissions (as ghost tags), recording the order in which clips
began to sound. -/
structure PlayerState where
  initialized : Bool
  queue : List Clip
  processing : Bool
  playing : Bool
  active : Option Clip
  fftIdle : Bool
  intervalRef : Option Nat
  liveIntervals : List Nat
  sounding : List Nat
  pendingEnded : List Nat
  nextTag : Nat
  played : List Nat
deriving DecidableEq

/-- The state before init: no device graph, empty queue, idle snapshot,
no sources, no intervals, no pending events. -/
def initialState : PlayerState :=
  { initialized := false, queue := [], processing := false, playing := false,
    active := none, fftIdle := true, intervalRef := none, liveIntervals := [],
    sounding := [], pendingEnded := [], nextTag := 0, played := [] }

/-- playNextClip: errors if the device graph is not initialized; returns
if the queue is empty or a clip is already processing; otherwise shifts
the queue head, sets processing and the visible playing flag, wires the
clip in as the active source, starts a fresh 5 ms sampling interval —
overwriting intervalRef with the new id, so any id previously stored
there is lost — starts output (the source begins to sound) and signals
onPlayAudio with the clip id. -/
def playNextClip (s : PlayerState) : PlayerState × List SEvent :=
  if s.initialized = false then
    (s, [SEvent.error "Audio environment is not initialized"])
  else if s.queue.isEmpty || s.processing then (s, [])
  else
    match s.queue with
    | [] => (s, [])
    | c :: rest =>
      ({ s with queue := rest, processing := true, playing := true,
                active := some c,
                intervalRef := some c.tag,
                liveIntervals := s.liveIntervals ++ [c.tag],
                sounding := s.sounding ++ [c.tag],
                played := s.played ++ [c.tag] },
       [SEvent.playAudio c.id])

/-- The body of the onended handler every started source registers,
executed when the ended event of some source is delivered: if the shared
interval ref is non-null, clearInterval whatever id it currently holds —
not necessarily the id of the interval started for the ending source, and
the ref itself keeps its value — then reset the snapshot to idle,
disconnect, clear processing and the visible playing flag, drop the
active-source reference unconditionally, and chain into playNextClip for
the next queue head. -/
def onEndedBody (s : PlayerState) : PlayerState × List SEvent :=
  playNextClip
    { s with
      liveIntervals :=
        match s.intervalRef with
        | some i => s.liveIntervals.erase i
        | none => s.liveIntervals,
      fftIdle := true, processing := false, playing := false, active := none }

/-- Natural completion of a sounding source: its buffer ends, the sound
stops, and the ended event of the source joins the completion queue, to
be delivered later by deliverEnded. -/
def finishClip (s : PlayerState) (t : Nat) : PlayerState :=
  { s with sounding := s.sounding.erase t, pendingEnded := s.pendingEnded ++ [t] }

/-- Delivery of a queued ended event from the completion queue: the
platform removes the entry and runs the onended body of the source. -/
def deliverEnded (s : PlayerState) (t : Nat) : PlayerState × List SEvent :=
  onEndedBody { s with pendingEnded := s.pendingEnded.erase t }

/-- initPlayer: builds the device graph (context, analyser, gain) and
marks the player initialized; it touches none of the queue or playback
fields. -/
def initPlayer (s : PlayerState) : PlayerState :=
  { s with initialized := true }

/-- The queue entry addToQueue builds from a successfully decoded clip,
stamped with the current value of the ghost enqueue counter. -/
def freshClip (s : PlayerState) (id : String) (samples : List ℚ) : Clip :=
  { id := id, samples := samples, tag := s.nextTag }

/-- The state after addToQueue appends a successfully decoded clip to the
queue (and the ghost counter advances). -/
def pushClip (s : PlayerState) (id : String) (samples : List ℚ) : PlayerState :=
  { s with queue := s.queue ++ [freshClip s id samples], nextTag := s.nextTag + 1 }

/-- addToQueue: reports an error if called before init; otherwise decodes
the clip inside the try block — a decode failure reports an error and
leaves every field untouched, the clip dropped — and on success appends
the decoded clip to the queue, calling playNextClip exactly when the
appended clip is the only one queued. -/
def addToQueue (s : PlayerState) (id : String) (bytes : List Nat) :
    PlayerState × List SEvent :=
  if s.initialized = false then
    (s, [SEvent.error "Audio player has not been initialized"])
  else
    match decodeClip bytes with
    | none => (s, [SEvent.error "Failed to add clip to queue"])
    | some samples =>
      let s1 : PlayerState := pushClip s id samples
      if s1.queue.length = 1 then playNextClip s1 else (s1, [])

/-- One firing of a live 5 ms sampling task: the callback returns
untouched when the analyser is gone (after stopAll); otherwise it reads
the analyser and stores a fresh snapshot.  Whether the stored snapshot
coincides with the idle one depends on the audio data (and a read error
stores exactly the idle snapshot), so the firing is parameterized by that
outcome. -/
def tickSpectrum (s : PlayerState) (snapshotIdle : Bool) : PlayerState :=
  if s.initialized then { s with fftIdle := snapshotIdle } else s

/-- clearQueue, translated literally from its synchronous body: if a
source is active, stop it — the sound ceases at once and the platform
queues the ended event of the source for later, asynchronous delivery —
and null the reference; then empty the pending queue, clear processing
and the visible playing flag, and reset the snapshot to idle.  The body
never touches frequencyDataIntervalId: any cancellation of the sampling
interval happens only inside the onended handler, once the queued ended
event is actually delivered. -/
def clearQueue (s : PlayerState) : PlayerState × List SEvent :=
  match s.active with
  | some c =>
    ({ s with active := none,
              sounding := s.sounding.erase c.tag,
              pendingEnded := s.pendingEnded ++ [c.tag],
              queue := [], processing := false, playing := false, fftIdle := true }, [])
  | none =>
    ({ s with active := none,
              queue := [], processing := false, playing := false, fftIdle := true }, [])

/-- stopAll: full teardown — drops initialization, clears processing and
the visible playing flag, cancels the sampling interval whose id the
shared ref currently holds (and only that one: an id lost from the ref
stays live), disconnects and drops the active source, releases the
analyser and the context (silencing every source; events still pending
from the closed graph are discarded in this model), empties the queue and
resets the snapshot to idle. -/
def stopAll (s : PlayerState) : PlayerState × List SEvent :=
  ({ s with initialized := false, processing := false, playing := false,
            liveIntervals :=
              match s.intervalRef with
              | some i => s.liveIntervals.erase i
              | none => s.liveIntervals,
            active := none, sounding := [], pendingEnded := [],
            queue := [], fftIdle := true }, [])

/-- The states of the sound player reachable from the initial state by
any interleaving of its operations and of the platform events: init,
enqueue, natural completion of a sounding source (which only queues the
ended event), delivery of a queued ended event from the completion queue
(which may happen arbitrarily later, per the asynchronous scheduling
model — a completion-queue entry, not an immediate callback), a firing of
a live sampling task, clearQueue and stopAll. -/
inductive Reachable : PlayerState → Prop
  | start : Reachable initialState
  | doInit {s : PlayerState} : Reachable s → Reachable (initPlayer s)
  | doEnqueue {s : PlayerState} (id : String) (bytes : List Nat) :
      Reachable s → Reachable (addToQueue s id bytes).1
  | doFinish {s : PlayerState} (t : Nat) : Reachable s → t ∈ s.sounding →
      Reachable (finishClip s t)
  | doDeliverEnded {s : PlayerState} (t : Nat) : Reachable s → t ∈ s.pendingEnded →
      Reachable (deliverEnded s t).1
  | doTick {s : PlayerState} (i : Nat) (snapshotIdle : Bool) : Reachable s →
      i ∈ s.liveIntervals → Reachable (tickSpectrum s snapshotIdle)
  | doClear {s : PlayerState} : Reachable s → Reachable (clearQueue s).1
  | doStop {s : PlayerState} : Reachable s → Reachable (stopAll s).1

/-- The stale-onended race, step by step.  raceState2: init, then enqueue
clip A (a 2-byte buffer), which starts A sounding with its sampling
interval (id 0) live and stored in the shared ref. -/
def raceState2 : PlayerState :=
  (addToQueue (initPlayer initialState) "A" [1, 0]).1

/-- raceState3: clearQueue stops A — its sound ceases, its ended event
joins the completion queue — but the sampling interval id 0 is still live
and still in the shared ref, because the clearQueue body never cancels
it. -/
def raceState3 : PlayerState := (clearQueue raceState2).1

/-- raceState4: a new clip D is enqueued before the stopped source of A
has its ended event delivered.  D starts sounding; its interval (id 1)
overwrites the shared ref, so id 0 can never be cancelled again. -/
def raceState4 : PlayerState := (addToQueue raceState3 "D" [1, 0]).1

/-- raceState5: the stale ended event of A is now delivered.  Its handler
clears the interval id the ref currently holds — id 1, the one sampling
D — sets processing false and drops the active reference while D is
still sounding, and leaves the orphaned interval id 0 running. -/
def raceState5 : PlayerState := (deliverEnded raceState4 0).1

/-- raceState6: with processing reset to false by the stale handler, a
further enqueue of clip E starts E while D is still sounding — two
sources sounding at once. -/
def raceState6 : PlayerState := (addToQueue raceState5 "E" [1, 0]).1

/-- A player state with one active clip, sounding with its sampling
interval live, and two pending queued clips. -/
def busyState : PlayerState :=
  { initialized := true,
    queue := [{ id := "B", samples := [0], tag := 1 }, { id := "C", samples := [0], tag := 2 }],
    processing := true, playing := true,
    active := some { id := "A", samples := [0], tag := 0 },
    fftIdle := false, intervalRef := some 0, liveIntervals := [0],
    sounding := [0], pendingEnded := [], nextTag := 3, played := [0] }

/-- Claim C1, counterexample: feeding a frame with an unrecognized tag to
the handler does not produce an assertion-style failure; the handler emits
no events and terminates normally, silently dropping the frame, contrary
to the stated fail-fast requirement. -/
theorem C1_counterexample :
    handleMessage true 0 bogusFrame = ([], Outcome.normal) ∧
    Outcome.normal ≠ Outcome.fatal := by
  decide

/-- Claim C1, amended: for every inbound frame whose tag is none of
vad_output, audio_output or text_output, the handler passes the frame to
the exhaustiveness marker isNever, whose runtime body is a no-op; the
handler therefore emits no events and returns normally.  Exhaustiveness is
enforced only at the type level, not at runtime. -/
theorem C1_amended (chatMode : Bool) (now : Nat) (m : Frame)
    (h1 : m.type ≠ "vad_output") (h2 : m.type ≠ "audio_output")
    (h3 : m.type ≠ "text_output") :
    handleMessage chatMode now m = ([], Outcome.normal) := by
  unfold handleMessage isNever
  rw [if_neg h1, if_neg h2, if_neg h3]
  rfl

/-- Closed instance of the amended claim C1 at a concrete unrecognized
frame. -/
theorem C1_witness :
    handleMessage true 0 { type := "mystery_output" } = ([], Outcome.normal) :=
  C1_amended true 0 { type := "mystery_output" }
    (by decide) (by decide) (by decide)

/-- Claim C2, counterexample: an audio_output frame whose question field
is present but holds the empty string yields no UserMessage at all — the
source guards the emission with a JavaScript truthiness test, which the
empty string fails — contradicting the claim that a present question field
always produces a UserMessage first. -/
theorem C2_counterexample :
    emptyQuestionFrame.question = some "" ∧
    (handleMessage true 0 emptyQuestionFrame).1.filter Emit.isUserMessageEmit = [] ∧
    (handleMessage true 0 emptyQuestionFrame).1 =
      [Emit.audioHandoff 200 emptyQuestionFrame 0] := by
  decide

theorem handleMessage_audio (chatMode : Bool) (now : Nat) (m : Frame)
    (hty : m.type = "audio_output") :
    handleMessage chatMode now m =
      ((if truthyString m.question = true then
          [Emit.userMsg "user_message" false (m.question.getD "") now]
        else []) ++
       (if truthyString m.answer = true then
          [Emit.assistantMsg "assistant_message" m.id false (m.answer.getD "") now m.endFlag]
        else []) ++
       [Emit.audioHandoff 200 m now],
       Outcome.normal) := by
  have hv : m.type ≠ "vad_output" := by rw [hty]; decide
  unfold handleMessage
  rw [if_neg hv, if_pos hty]
  cases hq : m.question with
  | none =>
    cases ha : m.answer with
    | none => rfl
    | some a =>
      by_cases ha0 : a = ""
      · subst ha0
        rfl
      · simp [truthyString, ha0]
  | some q =>
    by_cases hq0 : q = ""
    · subst hq0
      cases ha : m.answer with
      | none => rfl
      | some a =>
        by_cases ha0 : a = ""
        · subst ha0
          rfl
        · simp [truthyString, ha0]
    · cases ha : m.answer with
      | none => simp [truthyString, hq0]
      | some a =>
        by_cases ha0 : a = ""
        · subst ha0
          simp [truthyString, hq0]
        · simp [truthyString, hq0, ha0]

/-- Claim C2, amended: for every audio_output frame — with no restriction
on its fields — the handler emits, in order, the UserMessage echo of the
question exactly when the question field is present and nonempty, then
the AssistantMessage(content = answer, end = frame.end) carrying the clip
id of the frame exactly when the answer field is present and nonempty,
and unconditionally, as the last emission, the audio hand-off for the
frame, scheduled at a 200 ms delay while every text event is synchronous
(delay 0), so the text events are observed strictly before the audio
hand-off. -/
theorem C2_amended (chatMode : Bool) (now : Nat) (m : Frame)
    (hty : m.type = "audio_output") :
    (handleMessage chatMode now m).1 =
      (if truthyString m.question = true then
         [Emit.userMsg "user_message" false (m.question.getD "") now]
       else []) ++
      (if truthyString m.answer = true then
         [Emit.assistantMsg "assistant_message" m.id false (m.answer.getD "") now m.endFlag]
       else []) ++
      [Emit.audioHandoff 200 m now] ∧
    (handleMessage chatMode now m).1.getLast? = some (Emit.audioHandoff 200 m now) ∧
    (handleMessage chatMode now m).1.map Emit.delay =
      List.replicate ((handleMessage chatMode now m).1.length - 1) 0 ++ [200] ∧
    (handleMessage chatMode now m).2 = Outcome.normal := by
  have hbase := handleMessage_audio chatMode now m hty
  refine ⟨congrArg Prod.fst hbase, ?_, ?_, congrArg Prod.snd hbase⟩
  · rw [hbase]
    cases ht1 : truthyString m.question <;> cases ht2 : truthyString m.answer <;> rfl
  · rw [hbase]
    cases ht1 : truthyString m.question <;> cases ht2 : truthyString m.answer <;> rfl

/-- Closed instance of the amended claim C2 at the concrete frame of the
specification scenario (question hi, answer hello, end false). -/
theorem C2_witness :
    (handleMessage true 7 specAudioFrame).1 =
      [Emit.userMsg "user_message" false "hi" 7,
       Emit.assistantMsg "assistant_message" "clip-9" false "hello" 7 false,
       Emit.audioHandoff 200 specAudioFrame 7] :=
  ((C2_amended true 7 specAudioFrame rfl).1).trans (by decide)

/-- Claim C8: for every vad_output frame, in chat mode the handler emits
the onVAD speech-interruption signal strictly before the empty UserMessage
(message type user_vad_message, fromText false, content empty, stamped
with the receipt clock), and in turn-based mode it emits exactly one
AssistantMessage placeholder with empty content and end false; in both
modes the handler terminates normally. -/
theorem C8_confirmed (now : Nat) (m : Frame) (hty : m.type = "vad_output") :
    handleMessage true now m =
      ([Emit.vad, Emit.userMsg "user_vad_message" false "" now], Outcome.normal) ∧
    handleMessage false now m =
      ([Emit.assistantMsg "assistant_notend_message" "notend begin" false "" now false],
       Outcome.normal) := by
  have ha : m.type ≠ "audio_output" := by rw [hty]; decide
  have ht : m.type ≠ "text_output" := by rw [hty]; decide
  constructor <;>
    · unfold handleMessage isNever
      rw [if_pos hty, if_neg ha, if_neg ht]
      rfl

/-- Closed instance of claim C8 at a concrete vad_output frame. -/
theorem C8_witness :
    handleMessage true 3 { type := "vad_output" } =
      ([Emit.vad, Emit.userMsg "user_vad_message" false "" 3], Outcome.normal) :=
  (C8_confirmed 3 { type := "vad_output" } rfl).1

/-- Claim C7, counterexample: two failures of the claim at concrete
calls.  First, with the session not in chat mode and a non-sentinel text,
sendUserInput still emits a local application event — the AssistantMessage
placeholder — contradicting the claim that local events are emitted if
and only if the session is in chat mode.  Second, with no client (connect
never called), nothing at all is forwarded to any transport, yet the
local events are still emitted — contradicting the claim that the text is
forwarded on every call. -/
theorem C7_counterexample :
    (sendUserInput connectedState false 0 "hello").2 =
      [Emit.assistantMsg "assistant_notend_message" "notend begin" false "" 0 false] ∧
    (sendUserInput connectedState false 0 "hello").2 ≠ [] ∧
    (sendUserInput nullClientState false 0 "hello").1 = [] ∧
    (sendUserInput nullClientState false 0 "hello").2 ≠ [] := by
  decide

/-- Claim C7, amended: for every call sendUserInput(text), in every hook
state: the text is forwarded to the transport send channel exactly when a
client exists (if connect was never called there is no transport send);
if text equals the reserved sentinel, the call returns right after the
forwarding step and no local events are emitted; otherwise a local
UserMessage(content = text) is emitted exactly when the session is in
chat mode, and the AssistantMessage placeholder with empty content and
end false is then emitted in both modes, unconditionally. -/
theorem C7_amended (st : HookState) (curChatMode : Bool) (now : Nat) (text : String)
    (h : text ≠ "new topic") :
    sendUserInput st curChatMode now text =
      ((if st.client.isSome then [Outbound.userInput text] else []),
       (if curChatMode then [Emit.userMsg "user_message" false text now] else []) ++
         [Emit.assistantMsg "assistant_notend_message" "notend begin" false "" now false]) ∧
    sendUserInput st curChatMode now "new topic" =
      ((if st.client.isSome then [Outbound.userInput "new topic"] else []), []) := by
  constructor
  · unfold sendUserInput
    rw [if_neg h]
    cases hc : st.client <;> rfl
  · unfold sendUserInput
    rw [if_pos rfl]
    cases hc : st.client <;> rfl

/-- Closed instance of the amended claim C7: with a live client, chat
mode and a concrete greeting, the text is forwarded and the echo then the
placeholder are emitted. -/
theorem C7_witness :
    sendUserInput connectedState true 4 "hi there" =
      ([Outbound.userInput "hi there"],
       [Emit.userMsg "user_message" false "hi there" 4,
        Emit.assistantMsg "assistant_notend_message" "notend begin" false "" 4 false]) :=
  ((C7_amended connectedState true 4 "hi there" (by decide)).1).trans (by decide)

/-- Claim C10: with no connection ever established (client reference
null), each outbound command returns normally, sends nothing to any
transport and leaves the state unchanged, and disconnect only resets the
ready state to idle, also sending nothing. -/
theorem C10_confirmed (st : HookState) (bytes : List Nat) (p : Bool) (text : String)
    (h : st.client = none) :
    sendSessionSettings st = (st, []) ∧
    sendAudio st bytes p = (st, []) ∧
    sendAssistantInput st text = (st, []) ∧
    sendPauseAssistantMessage st = (st, []) ∧
    sendResumeAssistantMessage st = (st, []) ∧
    disconnect st = ({ st with readyState := VoiceReadyState.idle }, []) := by
  unfold sendSessionSettings sendAudio sendAssistantInput
    sendPauseAssistantMessage sendResumeAssistantMessage disconnect
  rw [h]
  exact ⟨rfl, rfl, rfl, rfl, rfl, rfl⟩

/-- Closed instance of claim C10 at the never-connected state. -/
theorem C10_witness :
    sendAudio nullClientState [1, 2] true = (nullClientState, []) ∧
    disconnect nullClientState =
      ({ nullClientState with readyState := VoiceReadyState.idle }, []) :=
  ⟨(C10_confirmed nullClientState [1, 2] true "x" rfl).2.1,
   (C10_confirmed nullClientState [1, 2] true "x" rfl).2.2.2.2.2⟩

theorem specDecode_cons_cons (lo hi : Nat) (rest : List Nat) :
    specDecode (lo :: hi :: rest) = (int16OfBytes lo hi : ℚ) / 32768 :: specDecode rest := by
  unfold specDecode
  have hlen : (lo :: hi :: rest).length / 2 = rest.length / 2 + 1 := by
    simp only [List.length_cons]
    omega
  rw [hlen, List.range_succ_eq_map, List.map_cons, List.map_map]
  rfl

theorem decodePCM16_eq_specDecode (bytes : List Nat) :
    decodePCM16 bytes = specDecode bytes := by
  induction bytes using decodePCM16.induct with
  | case1 lo hi rest ih =>
    rw [decodePCM16, ih, specDecode_cons_cons]
  | case2 b h =>
    match b, h with
    | [], _ => rfl
    | [a], _ => simp [decodePCM16, specDecode]
    | lo :: hi :: rest, h => exact (h lo hi rest rfl).elim

/-- Claim C4, counterexample: the empty buffer has even length 0, yet the
decoder does not produce a 0-sample buffer — numberOfFrames is 0, the
platform buffer constructor rejects a zero frame count, and the clip fails
to decode — contrary to the claim that every even byte length n yields
exactly n / 2 samples. -/
theorem C4_counterexample :
    decodeClip [] = none ∧ List.length ([] : List Nat) % 2 = 0 := by
  decide

/-- Claim C4, amended: for every raw byte buffer of even length n with
n ≥ 2, the decoder produces exactly n / 2 samples, sample i being the
i-th little-endian signed 16-bit integer divided by 32768; in particular
the 4-byte buffer holding int16 values -32768 and 32767 decodes to the
2-sample buffer with values -1 and 32767 / 32768. -/
theorem C4_amended (bytes : List Nat) (h2 : 2 ≤ bytes.length)
    (he : bytes.length % 2 = 0) :
    decodeClip bytes = some (specDecode bytes) ∧
    (specDecode bytes).length = bytes.length / 2 ∧
    decodeClip [0, 128, 255, 127] = some [-1, 32767 / 32768] := by
  refine ⟨?_, ?_, ?_⟩
  · unfold decodeClip
    rw [if_neg (by omega), decodePCM16_eq_specDecode]
  · simp [specDecode]
  · norm_num [decodeClip, decodePCM16, int16OfBytes]

/-- Closed instance of the amended claim C4 at the 4-byte buffer of the
specification scenario. -/
theorem C4_witness :
    decodeClip [0, 128, 255, 127] = some [-1, 32767 / 32768] :=
  (C4_amended [0, 128, 255, 127] (by decide) (by decide)).2.2

theorem addToQueue_some {s : PlayerState} {bytes : List Nat} {samples : List ℚ}
    (hinit : ¬ s.initialized = false) (hdec : decodeClip bytes = some samples)
    (id : String) :
    addToQueue s id bytes =
      if (pushClip s id samples).queue.length = 1 then playNextClip (pushClip s id samples)
      else (pushClip s id samples, []) := by
  unfold addToQueue
  rw [if_neg hinit, hdec]

theorem addToQueue_into_idle {s : PlayerState} (hinit : s.initialized = true)
    (hq : s.queue = []) (hp : s.processing = false) (id : String) :
    (addToQueue s id [1, 0]).2 = [SEvent.playAudio id] := by
  have hinit1 : ¬ (s.initialized = false) := by
    rw [hinit]
    simp
  have hdec : decodeClip [1, 0] = some [(1 : ℚ) / 32768] := by
    norm_num [decodeClip, decodePCM16, int16OfBytes]
  rw [addToQueue_some hinit1 hdec id]
  rw [if_pos (by simp [pushClip, hq])]
  unfold playNextClip pushClip freshClip
  simp [hinit, hq, hp]

theorem reach_raceState5 : Reachable raceState5 :=
  Reachable.doDeliverEnded 0
    (Reachable.doEnqueue "D" [1, 0]
      (Reachable.doClear
        (Reachable.doEnqueue "A" [1, 0]
          (Reachable.doInit Reachable.start))))
    (by decide)

/-- Claim C3, exhibit of the code bug refuting the claimed invariant.
The reachable race trace init → enqueue A → clearQueue → enqueue D →
delivery of the stale ended event of the stopped source A → enqueue E
produces, after the stale delivery, a state where clip D is still
sounding but processing is false, and, after the further enqueue, a state
where two clips (D and E) sound at the same instant — the claimed
mutual-exclusion and processing-iff-sounding invariant is false of the
program on this interleaving, which the specification itself endorses
(clearQueue must leave the scheduler ready for new enqueues, and ended
delivery is a completion-queue entry, not an immediate callback). -/
theorem C3_bug_exhibit :
    Reachable raceState5 ∧
    raceState5.processing = false ∧
    raceState5.sounding = [1] ∧
    Reachable raceState6 ∧
    raceState6.sounding = [1, 2] ∧
    raceState6.sounding.length = 2 :=
  ⟨reach_raceState5, by decide, by decide,
   Reachable.doEnqueue "E" [1, 0] reach_raceState5, by decide, by decide⟩

/-- Claim C6, exhibit of the code bug refuting the claimed cancellation
guarantee.  In the same reachable race state, the 5 ms sampling interval
started for clip A (id 0) is still live although A stopped sounding two
operations earlier: clearQueue never cancels it, the shared ref was then
overwritten with the id of the interval of clip D, the stale onended
handler therefore cancels the wrong id (1), and the orphaned id 0 cannot
be cancelled by anything any more — the completion queue is empty, the
ref holds 1, and even a full stopAll leaves id 0 running: a sampling task
outlives its clip permanently. -/
theorem C6_bug_exhibit :
    Reachable raceState5 ∧
    0 ∈ raceState5.liveIntervals ∧
    0 ∉ raceState5.sounding ∧
    raceState5.pendingEnded = [] ∧
    raceState5.intervalRef = some 1 ∧
    0 ∈ (stopAll raceState5).1.liveIntervals :=
  ⟨reach_raceState5, by decide, by decide, by decide, by decide, by decide⟩


/-- Claim C5: from any state with an active clip, clearQueue immediately
stops the active clip — its sound ceases within the call, without waiting
for natural completion, and the ended event of the stopped source joins
the completion queue — clears the active-clip reference, empties the
pending queue, resets processing and the visible playing flag to false,
resets the spectrum snapshot to idle, emits nothing, keeps the
initialization status, and leaves the player ready to accept new
enqueues: a subsequent addToQueue of a decodable clip starts it at
once. -/
theorem C5_confirmed (s : PlayerState) (c : Clip) (hc : s.active = some c) :
    (clearQueue s).1.active = none ∧
    (clearQueue s).1.queue = [] ∧
    (clearQueue s).1.processing = false ∧
    (clearQueue s).1.playing = false ∧
    (clearQueue s).1.fftIdle = true ∧
    (clearQueue s).1.sounding = s.sounding.erase c.tag ∧
    (clearQueue s).1.pendingEnded = s.pendingEnded ++ [c.tag] ∧
    (clearQueue s).2 = [] ∧
    (clearQueue s).1.initialized = s.initialized ∧
    (s.initialized = true → ∀ id : String,
        (addToQueue (clearQueue s).1 id [1, 0]).2 = [SEvent.playAudio id]) := by
  unfold clearQueue
  rw [hc]
  refine ⟨rfl, rfl, rfl, rfl, rfl, rfl, rfl, rfl, rfl, ?_⟩
  intro hinit id
  refine addToQueue_into_idle ?_ rfl rfl id
  exact hinit

/-- Closed instance of claim C5 at a concrete busy state: one active clip
sounding and two pending clips. -/
theorem C5_witness :
    (clearQueue busyState).1.active = none ∧
    (clearQueue busyState).1.queue = [] ∧
    (clearQueue busyState).1.processing = false ∧
    (addToQueue (clearQueue busyState).1 "D" [1, 0]).2 = [SEvent.playAudio "D"] :=
  ⟨(C5_confirmed busyState { id := "A", samples := [0], tag := 0 } rfl).1,
   (C5_confirmed busyState { id := "A", samples := [0], tag := 0 } rfl).2.1,
   (C5_confirmed busyState { id := "A", samples := [0], tag := 0 } rfl).2.2.1,
   (C5_confirmed busyState { id := "A", samples := [0], tag := 0 }
       rfl).2.2.2.2.2.2.2.2.2 rfl "D"⟩


/-- Claim C9: addToQueue reports failures through the onError side effect
instead of throwing: called before init it emits the descriptive
not-initialized error and changes nothing; called on a clip whose bytes
fail to decode it emits the failed-to-add error, drops the clip and leaves
the queue and every other field of the state untouched. -/
theorem C9_confirmed (s : PlayerState) (id : String) (bytes : List Nat) :
    (s.initialized = false →
        addToQueue s id bytes =
          (s, [SEvent.error "Audio player has not been initialized"])) ∧
    (s.initialized = true → decodeClip bytes = none →
        addToQueue s id bytes = (s, [SEvent.error "Failed to add clip to queue"])) := by
  constructor
  · intro h
    unfold addToQueue
    rw [if_pos h]
  · intro h hdec
    unfold addToQueue
    rw [if_neg (by rw [h]; simp), hdec]

/-- Closed instance of claim C9: both failure paths at concrete inputs —
before init, and on a 1-byte buffer that fails to decode. -/
theorem C9_witness :
    addToQueue initialState "x" [7] =
      (initialState, [SEvent.error "Audio player has not been initialized"]) ∧
    addToQueue (initPlayer initialState) "x" [7] =
      (initPlayer initialState, [SEvent.error "Failed to add clip to queue"]) :=
  ⟨(C9_confirmed initialState "x" [7]).1 rfl,
   (C9_confirmed (initPlayer initialState) "x" [7]).2 rfl (by decide)⟩

end CleanS2S
